import Mathlib

/-!
Verification of the timelord job-lifecycle monitor.

This file gives a shallow embedding of the warning/termination state
machine of the cyverse-de/timelord service and proves properties of it.
The embedding follows the Go source:

  - `NotifStatuses` mirrors the record read from the notif_statuses table
    (vicedb.go), with durations and timestamps modelled as integers
    (seconds since the epoch for timestamps, seconds for durations).
  - `sendWarningJob` is the per-job body of `sendWarning` (the hour and
    day warning sweep) from the current main file, lines 400-417 of
    unnamed/part_003.
  - `killLoopJob` is the per-candidate body of the kill sweep in `main`,
    lines 643-672 of unnamed/part_003.
  - `sendPeriodicJob` is the per-job body of `sendPeriodic`, lines
    450-483 of unnamed/part_003.
  - `ensureNotifRecord` and `addNotifRecord` model the lazy creation of
    the notif_statuses row (part_003 lines 337-349, vicedb.go lines
    104-133, together with the column defaults of the migrations).
  - `killK8sJob` models the orchestrator-mode kill path of the JobKiller
    version in unnamed/part_001, lines 70-85.
  - `sendNotif` models the configuration guard of the notification
    sender, part_003 lines 193-246.
  - `ensurePlannedEndDate` and `getTimeLimit` model analyses.go lines
    613-633 and 660-685.

Outcomes of external collaborator calls (HTTP requests, database
writes) are supplied as explicit Boolean oracles in small environment
structures, one Boolean per call site, so that the control flow of the
Go code can be reproduced exactly, including the points where the
shared `err` variable is overwritten by a later call.
-/

namespace Timelord

/-- NotifStatuses mirrors the struct of the same name in vicedb.go: the
per-analysis notification bookkeeping row. `lastPeriodicWarning` is the
timestamp read back with a coalesce to the epoch sentinel, and
`periodicWarningPeriod` is the stored interval coalesced to 0 seconds
when NULL, as in `notifStatusQuery`. -/
structure NotifStatuses where
  hourWarningSent : Bool
  hourWarningFailureCount : Int
  dayWarningSent : Bool
  dayWarningFailureCount : Int
  killWarningSent : Bool
  killWarningFailureCount : Int
  lastPeriodicWarning : Int
  periodicWarningPeriod : Int
deriving DecidableEq

/-- The retry ceiling, `const maxAttempts = 3` in part_003. -/
def maxAttempts : Int := 3

/-- The two warning classes dispatched by the `switch warningKey` in
`sendWarning`: `warningSentKey` (hour) and `oneDayWarningKey` (day). -/
inductive WarningClass where
  | hour
  | day
deriving DecidableEq

/-- The `wasSent` selection of the switch in `sendWarning`. -/
def wasSentOf (st : NotifStatuses) : WarningClass → Bool
  | .hour => st.hourWarningSent
  | .day => st.dayWarningSent

/-- The `failureCount` selection of the switch in `sendWarning`. -/
def failureCountOf (st : NotifStatuses) : WarningClass → Int
  | .hour => st.hourWarningFailureCount
  | .day => st.dayWarningFailureCount

/-- The `updateWarningSent` setter selected by the switch
(`SetHourWarningSent` or `SetDayWarningSent` in vicedb.go). -/
def setWarningSent (st : NotifStatuses) : WarningClass → Bool → NotifStatuses
  | .hour, b => { st with hourWarningSent := b }
  | .day, b => { st with dayWarningSent := b }

/-- The `updateFailureCount` setter selected by the switch
(`SetHourWarningFailureCount` or `SetDayWarningFailureCount`). -/
def setFailureCount (st : NotifStatuses) : WarningClass → Int → NotifStatuses
  | .hour, n => { st with hourWarningFailureCount := n }
  | .day, n => { st with dayWarningFailureCount := n }

/-- Outcomes of the three collaborator calls made by one iteration of
the `sendWarning` loop body: the `SendWarningNotification` delivery,
the failure-count database write, and the sent-flag database write. -/
structure WarnEnv where
  sendOk : Bool
  setFailureCountOk : Bool
  setWarningSentOk : Bool
deriving DecidableEq

/-- Result of one `sendWarning` loop iteration for one job: whether
`SendWarningNotification` was invoked, and the notif_statuses row as it
stands in the database afterwards (failed writes leave fields
unchanged). -/
structure WarnOut where
  sendAttempted : Bool
  st : NotifStatuses
deriving DecidableEq

/-- Per-job body of `sendWarning` (part_003 lines 398-417), entered
after the notif_statuses row has been read successfully. Control flow
is reproduced exactly: when `SendWarningNotification` fails, the local
`failureCount` is incremented and `err` is REASSIGNED to the result of
`updateFailureCount`; the following guard `err == nil || failureCount
>= maxAttempts` therefore tests the outcome of the database write, not
of the delivery. -/
def sendWarningJob (cls : WarningClass) (st : NotifStatuses) (env : WarnEnv) : WarnOut :=
  if wasSentOf st cls then
    ⟨false, st⟩
  else
    if env.sendOk then
      -- err == nil from the send, so updateWarningSent(true) runs.
      ⟨true, if env.setWarningSentOk then setWarningSent st cls true else st⟩
    else
      -- send failed: failureCount is incremented locally and written;
      -- err now holds the result of updateFailureCount.
      let fc := failureCountOf st cls + 1
      let st1 := if env.setFailureCountOk then setFailureCount st cls fc else st
      if env.setFailureCountOk = true ∨ maxAttempts ≤ fc then
        ⟨true, if env.setWarningSentOk then setWarningSent st1 cls true else st1⟩
      else
        ⟨true, st1⟩

/-- Iterated sweep ticks of `sendWarningJob` for one job and class,
threading the database row through. Returns the final row and whether
any tick invoked the notification sender. -/
def sendWarningTicks (cls : WarningClass) (st : NotifStatuses) : List WarnEnv → NotifStatuses × Bool
  | [] => (st, false)
  | e :: es =>
    let o := sendWarningJob cls st e
    let r := sendWarningTicks cls o.st es
    (r.1, o.sendAttempted || r.2)

/-- Outcomes of the collaborator calls made by one iteration of the
kill sweep for one candidate: the `jobKiller.KillJob` termination
request, the `SendKillNotification` delivery, and the two database
writes. -/
structure KillEnv where
  killOk : Bool
  notifOk : Bool
  setFailureCountOk : Bool
  setWarningSentOk : Bool
deriving DecidableEq

/-- Result of one kill-sweep iteration for one candidate. -/
structure KillOut where
  killAttempted : Bool
  notifAttempted : Bool
  st : NotifStatuses
deriving DecidableEq

/-- Per-candidate body of the kill sweep in `main` (part_003 lines
643-672), entered after the notif_statuses row has been read. The Go
control flow is reproduced exactly: the whole block is guarded by `if
!notifStatuses.KillWarningSent`; `SendKillNotification` runs only in
the else branch of a successful `KillJob`; on any error the
kill-warning failure count is incremented and written, and a failed
count write hits `continue`; the final guard `err == nil ||
KillWarningFailureCount >= maxAttempts` tests `err` as overwritten by
the count write. -/
def killLoopJob (st : NotifStatuses) (env : KillEnv) : KillOut :=
  if st.killWarningSent then
    ⟨false, false, st⟩
  else
    if env.killOk && env.notifOk then
      -- err == nil after kill and notification, so SetKillWarningSent(true) runs.
      ⟨true, true, if env.setWarningSentOk then { st with killWarningSent := true } else st⟩
    else
      -- err != nil: either the kill failed (notification skipped) or the
      -- notification failed after a successful kill.
      let fc := st.killWarningFailureCount + 1
      if env.setFailureCountOk then
        let st1 := { st with killWarningFailureCount := fc }
        -- err was reassigned to the successful count write, so the
        -- sent-flag write runs regardless of fc.
        ⟨true, env.killOk, if env.setWarningSentOk then { st1 with killWarningSent := true } else st1⟩
      else
        -- failed count write logs and continues.
        ⟨true, env.killOk, st⟩

/-- Outcome oracle for the orchestrator-mode substrate calls of the
JobKiller in unnamed/part_001: whether the app-exposer AdminListing
call succeeds, how many deployment resources it returns, and whether
the save-and-exit call succeeds. -/
structure ClusterEnv where
  listingOk : Bool
  deployments : Nat
  saveAndExitOk : Bool
deriving DecidableEq

/-- Result of `killK8sJob`: whether a termination (save-and-exit)
request was issued, whether any completion report was sent to the
system of record, and whether the function returned nil. -/
structure KillK8sOut where
  termRequested : Bool
  markCompletedCalled : Bool
  ok : Bool
deriving DecidableEq

/-- checkForAnalysisInCluster from unnamed/part_001 lines 50-66:
presence is `len(listing.Deployments) > 0`; a listing error
propagates. -/
def checkForAnalysisInCluster (env : ClusterEnv) : Option Bool :=
  if env.listingOk then some (decide (0 < env.deployments)) else none

/-- killK8sJob from unnamed/part_001 lines 70-85. When the analysis is
found in the cluster the termination is requested; when it is absent
the function returns nil WITHOUT any completion report (the body holds
only a TODO comment about setting the status to Completed). -/
def killK8sJob (env : ClusterEnv) : KillK8sOut :=
  match checkForAnalysisInCluster env with
  | none => ⟨false, false, false⟩
  | some found =>
    if found then ⟨true, false, env.saveAndExitOk⟩
    else ⟨false, false, true⟩

/-- Composition of the kill sweep body with the orchestrator-mode
JobKiller: the `KillJob` outcome fed to the loop is the return value of
`killK8sJob`. -/
def killLoopJobK8s (st : NotifStatuses) (cenv : ClusterEnv)
    (notifOk setFailureCountOk setWarningSentOk : Bool) : KillK8sOut × KillOut :=
  let k := killK8sJob cenv
  (k, killLoopJob st ⟨k.ok, notifOk, setFailureCountOk, setWarningSentOk⟩)

/-- Outcomes of the collaborator calls made by one iteration of the
`sendPeriodic` loop body: the `SendPeriodicNotification` delivery and
the `UpdateLastPeriodicWarning` database write. -/
structure PeriodicEnv where
  sendOk : Bool
  updateLastOk : Bool
deriving DecidableEq

/-- Result of one `sendPeriodic` loop iteration for one job. -/
structure PeriodicOut where
  sendAttempted : Bool
  st : NotifStatuses
deriving DecidableEq

/-- periodDuration computation of `sendPeriodic`: 14400 seconds unless
the stored period is positive. -/
def effectivePeriod (st : NotifStatuses) : Int :=
  if 0 < st.periodicWarningPeriod then st.periodicWarningPeriod else 14400

/-- comparisonTimestamp computation of `sendPeriodic`: the job start
date, replaced by lastPeriodicWarning when the latter is more recent. -/
def comparisonTimestamp (startDate : Int) (st : NotifStatuses) : Int :=
  if startDate < st.lastPeriodicWarning then st.lastPeriodicWarning else startDate

/-- Per-job body of `sendPeriodic` (part_003 lines 450-483), entered
after the notif_statuses row has been read and the start date parsed.
The reminder fires iff comparisonTimestamp + periodDuration is strictly
before now; a failed delivery continues without touching the row; a
successful delivery writes lastPeriodicWarning := now. -/
def sendPeriodicJob (startDate now : Int) (st : NotifStatuses) (env : PeriodicEnv) : PeriodicOut :=
  if comparisonTimestamp startDate st + effectivePeriod st < now then
    if env.sendOk then
      if env.updateLastOk then ⟨true, { st with lastPeriodicWarning := now }⟩
      else ⟨true, st⟩
    else ⟨true, st⟩
  else ⟨false, st⟩

/-- The one field of the Job row consulted by `AddNotifRecord`: the
per-job periodic period override in seconds (`Job.PeriodicPeriod`). -/
structure JobRec where
  periodicPeriod : Int
deriving DecidableEq

/-- AddNotifRecord from vicedb.go lines 110-133 together with the
column defaults of the migrations: the insert names only analysis_id,
external_id and periodic_warning_period, so the three sent flags
default to false and the three failure counts to 0; the period is the
job override when positive, else the 4 hour (14400 second) default;
last_periodic_warning is left NULL and reads back as the epoch
sentinel. -/
def addNotifRecord (job : JobRec) : NotifStatuses :=
  { hourWarningSent := false
    hourWarningFailureCount := 0
    dayWarningSent := false
    dayWarningFailureCount := 0
    killWarningSent := false
    killWarningFailureCount := 0
    lastPeriodicWarning := 0
    periodicWarningPeriod := if 0 < job.periodicPeriod then job.periodicPeriod else 14400 }

/-- ensureNotifRecord from part_003 lines 337-349: insert-if-absent.
The notif_statuses table keys rows uniquely by analysis_id, so the row
for one job is modelled as an `Option NotifStatuses`. -/
def ensureNotifRecord (existing : Option NotifStatuses) (job : JobRec) : Option NotifStatuses :=
  match existing with
  | some r => some r
  | none => some (addNotifRecord job)

/-- The two process-wide service base URIs consulted by `sendNotif`. -/
structure NotifConfig where
  notifsURI : String
  usersURI : String
deriving DecidableEq

/-- Outcomes of the external calls `sendNotif` makes once configured:
the iplant-groups user lookup, the start-date parse, the duration
computation, the notification POST and the response-body read. -/
structure SendNotifEnv where
  userLookupOk : Bool
  startDateParseOk : Bool
  durationOk : Bool
  postOk : Bool
  readBodyOk : Bool
deriving DecidableEq

/-- Result of `sendNotif`: whether any external service was contacted,
and whether the function returned nil. -/
structure SendNotifOut where
  contactedServices : Bool
  ok : Bool
deriving DecidableEq

/-- sendNotif from part_003 lines 193-246. When either the
notification URI or the iplant-groups URI is the empty string the
function logs and returns nil immediately, before any external call.
Otherwise the calls run in order and the first failure aborts. -/
def sendNotif (cfg : NotifConfig) (env : SendNotifEnv) : SendNotifOut :=
  if cfg.notifsURI = "" ∨ cfg.usersURI = "" then ⟨false, true⟩
  else if env.userLookupOk = false then ⟨true, false⟩
  else if env.startDateParseOk = false then ⟨true, false⟩
  else if env.durationOk = false then ⟨true, false⟩
  else if env.postOk = false then ⟨true, false⟩
  else if env.readBodyOk = false then ⟨true, false⟩
  else ⟨true, true⟩

/-- Per-tool contribution of the time-limit query in analyses.go
(getTimeLimitQuery, lines 615-622): the tool limit when positive, else
the 72 hour default of 259200 seconds. -/
def toolLimit (t : Int) : Int :=
  if 0 < t then t else 259200

/-- getTimeLimit from analyses.go lines 624-633: the SQL sum of the
per-tool contributions over the tools joined to the job. -/
def getTimeLimit (tools : List Int) : Int :=
  (tools.map toolLimit).sum

/-- The two fields of the analysis record consulted by
`EnsurePlannedEndDate`: the stored planned end date string (empty means
unset) and the parsed start date in nanoseconds since the epoch. -/
structure Analysis where
  plannedEndDate : String
  startNanos : Int
deriving DecidableEq

/-- Outcomes of the fallible steps of `EnsurePlannedEndDate`: the
start-date parse, the time-limit query and the planned-end-date
write. -/
structure EnsureEnv where
  startDateParses : Bool
  queryOk : Bool
  writeOk : Bool
deriving DecidableEq

/-- EnsurePlannedEndDate from analyses.go lines 660-685. When the
planned end date is already set the function returns nil at once and
performs no write (`.ok none`). Otherwise it parses the start date,
queries the summed tool limit, computes endDate = (startNanos +
limit seconds in nanoseconds) / 1e6 milliseconds and writes it
(`.ok (some endDate)` records the written value). -/
def ensurePlannedEndDate (a : Analysis) (tools : List Int) (env : EnsureEnv) :
    Except String (Option Int) :=
  if a.plannedEndDate ≠ "" then .ok none
  else if env.startDateParses = false then .error "error parsing start date field"
  else if env.queryOk = false then .error "error fetching time limit"
  else
    let endDate := (a.startNanos + getTimeLimit tools * 1000000000) / 1000000
    if env.writeOk = false then .error "error setting planned end date"
    else .ok (some endDate)

/-- Effect of the result of `ensurePlannedEndDate` on the stored
planned end date: only a successful write changes it. -/
def applyPlannedEndDate (stored : Option Int) : Except String (Option Int) → Option Int
  | .ok (some v) => some v
  | _ => stored

/-- A notif_statuses row as freshly created: nothing sent, no
failures. -/
def st0 : NotifStatuses :=
  ⟨false, 0, false, 0, false, 0, 0, 0⟩

/-- A row whose hour warning is already marked sent. -/
def stHourSent : NotifStatuses :=
  { st0 with hourWarningSent := true }

/-- A row whose kill warning is already marked sent. -/
def stKillSent : NotifStatuses :=
  { st0 with killWarningSent := true }

/-- Substrate outcome for a kill candidate that is absent from the
cluster: the admin listing succeeds and returns zero deployments. -/
def cenvAbsent : ClusterEnv :=
  ⟨true, 0, true⟩

/-- C1: claimed that a sweep tick marks a due, unsent hour or day
warning (and likewise the kill notification) sent only on delivery
success or when the failure count reaches 3, and that after a failed
delivery with a count below 3 the flag stays false. The code violates
this: after a failed delivery the shared err variable is reassigned to
the result of the successful failure-count write, so the guard err ==
nil holds and the flag is written true on the very first failure, with
the failure count at 1. This evaluates all three stages at that
failing input. -/
theorem sendWarning_err_overwrite_marks_sent_below_ceiling :
    (sendWarningJob .hour st0 ⟨false, true, true⟩).st.hourWarningSent = true
    ∧ (sendWarningJob .hour st0 ⟨false, true, true⟩).st.hourWarningFailureCount = 1
    ∧ (sendWarningJob .day st0 ⟨false, true, true⟩).st.dayWarningSent = true
    ∧ (sendWarningJob .day st0 ⟨false, true, true⟩).st.dayWarningFailureCount = 1
    ∧ (killLoopJob st0 ⟨true, false, true, true⟩).st.killWarningSent = true
    ∧ (killLoopJob st0 ⟨true, false, true, true⟩).st.killWarningFailureCount = 1 := by
  decide

/-- C2 counterexample: the claim says a failed kill attempt does not
prevent the kill-notification send on that tick. On a candidate with
killWarningSent false whose kill attempt fails, the loop never reaches
SendKillNotification, because the send sits in the else branch of the
kill error check. -/
theorem killLoop_failed_kill_skips_notif_cex :
    st0.killWarningSent = false
    ∧ (killLoopJob st0 ⟨false, true, true, true⟩).killAttempted = true
    ∧ (killLoopJob st0 ⟨false, true, true, true⟩).notifAttempted = false := by
  decide

/-- C2 amended: for a kill candidate with killWarningSent false, the
kill notification is attempted on a tick exactly when the termination
request on that tick succeeded; a failed kill attempt skips the
notification and instead feeds the kill-warning failure-count
bookkeeping. -/
theorem killLoop_notif_attempted_iff_kill_ok (st : NotifStatuses) (env : KillEnv)
    (h : st.killWarningSent = false) :
    (killLoopJob st env).notifAttempted = env.killOk := by
  rcases env with ⟨killOk, notifOk, fcOk, sentOk⟩
  cases killOk <;> cases notifOk <;> cases fcOk <;> simp [killLoopJob, h]

/-- C2 witness: the amended statement at a concrete input. -/
theorem killLoop_notif_attempted_iff_kill_ok_witness :
    st0.killWarningSent = false
    ∧ (killLoopJob st0 ⟨true, true, true, true⟩).notifAttempted = true :=
  ⟨rfl, killLoop_notif_attempted_iff_kill_ok st0 ⟨true, true, true, true⟩ rfl⟩

/-- C3 counterexample: the claim says the kill attempt is not gated on
the killWarningSent flag and is retried on every tick. For a candidate
whose killWarningSent flag is already true, the tick performs no kill
attempt at all. -/
theorem killLoop_gated_on_sent_flag_cex :
    stKillSent.killWarningSent = true
    ∧ (killLoopJob stKillSent ⟨true, true, true, true⟩).killAttempted = false := by
  decide

/-- C3 amended: a termination request is issued for a kill candidate on
a sweep tick exactly when its killWarningSent flag is still false; once
the notification bookkeeping marks the flag true, no further kill
attempts are made for that job even while it remains a candidate. -/
theorem killLoop_kill_attempted_iff_unsent (st : NotifStatuses) (env : KillEnv) :
    (killLoopJob st env).killAttempted = !st.killWarningSent := by
  rcases env with ⟨killOk, notifOk, fcOk, sentOk⟩
  cases h : st.killWarningSent <;> cases killOk <;> cases notifOk <;> cases fcOk <;>
    simp [killLoopJob, h]

/-- C4: claimed that an orchestrator-mode kill candidate absent from
the substrate gets a completion report (markCompleted) and no kill
notification, with no NotifStatus writes. The code violates this: the
absent branch of killK8sJob returns nil without any completion report
(the body holds only a TODO comment), and since KillJob then reports
success, the kill loop goes on to attempt the kill notification and to
write the NotifStatus row. Evaluated at the failing input: admin
listing succeeds with zero deployments, killWarningSent false. -/
theorem killK8sJob_absent_no_completion_report :
    (killK8sJob cenvAbsent).markCompletedCalled = false
    ∧ (killK8sJob cenvAbsent).termRequested = false
    ∧ (killK8sJob cenvAbsent).ok = true
    ∧ (killLoopJobK8s st0 cenvAbsent true true true).2.notifAttempted = true
    ∧ (killLoopJobK8s st0 cenvAbsent true true true).2.st.killWarningSent = true := by
  decide

/-- C5: for an analysis with no planned end date stored, a successful
run of EnsurePlannedEndDate writes start date plus the summed per-tool
limit (in epoch milliseconds, with the start date given in whole
seconds), and a tool whose limit is 0 contributes the 72 hour default
of 259200 seconds to the sum instead of causing an error. -/
theorem ensurePlannedEndDate_computes_sum (s : Int) (tools : List Int) :
    ensurePlannedEndDate ⟨"", s * 1000000000⟩ tools ⟨true, true, true⟩
      = .ok (some ((s + getTimeLimit tools) * 1000))
    ∧ ∀ rest : List Int, getTimeLimit (0 :: rest) = 259200 + getTimeLimit rest := by
  constructor
  · have hin : s * 1000000000 + getTimeLimit tools * 1000000000
        = ((s + getTimeLimit tools) * 1000) * 1000000 := by ring
    simp [ensurePlannedEndDate, hin, Int.mul_ediv_cancel _ (by norm_num : (1000000 : Int) ≠ 0)]
  · intro rest
    simp [getTimeLimit, toolLimit]

/-- C6: EnsurePlannedEndDate on an analysis whose planned end date is
already set returns success at once, performs no write, and leaves the
stored value unchanged. -/
theorem ensurePlannedEndDate_idempotent (a : Analysis) (tools : List Int) (env : EnsureEnv)
    (h : a.plannedEndDate ≠ "") :
    ensurePlannedEndDate a tools env = .ok none
    ∧ ∀ stored, applyPlannedEndDate stored (ensurePlannedEndDate a tools env) = stored := by
  have h1 : ensurePlannedEndDate a tools env = .ok none := by
    simp [ensurePlannedEndDate, h]
  exact ⟨h1, fun stored => by rw [h1]; rfl⟩

/-- C6 witness: a concrete analysis with the planned end date set. -/
theorem ensurePlannedEndDate_idempotent_witness :
    ensurePlannedEndDate ⟨"x", 0⟩ [42] ⟨true, true, true⟩ = .ok none
    ∧ applyPlannedEndDate (some 99) (ensurePlannedEndDate ⟨"x", 0⟩ [42] ⟨true, true, true⟩)
      = some 99 :=
  ⟨(ensurePlannedEndDate_idempotent ⟨"x", 0⟩ [42] ⟨true, true, true⟩ (by decide)).1,
   (ensurePlannedEndDate_idempotent ⟨"x", 0⟩ [42] ⟨true, true, true⟩ (by decide)).2 (some 99)⟩

/-- C7: once the hour (or day) warning sent flag of a job is true, no
later sweep tick ever invokes the notification sender for that class
again, over any sequence of collaborator outcomes; the row is also left
untouched. -/
theorem warning_sent_terminal (cls : WarningClass) (st : NotifStatuses)
    (h : wasSentOf st cls = true) (envs : List WarnEnv) :
    (sendWarningTicks cls st envs).2 = false ∧ (sendWarningTicks cls st envs).1 = st := by
  induction envs with
  | nil => exact ⟨rfl, rfl⟩
  | cons e es ih =>
      have hstep : sendWarningJob cls st e = ⟨false, st⟩ := by
        simp [sendWarningJob, h]
      simpa [sendWarningTicks, hstep] using ih

/-- C7 witness: two ticks against a row whose hour warning is sent. -/
theorem warning_sent_terminal_witness :
    wasSentOf stHourSent .hour = true
    ∧ (sendWarningTicks .hour stHourSent [⟨false, true, true⟩, ⟨true, true, true⟩]).2 = false :=
  ⟨rfl,
   (warning_sent_terminal .hour stHourSent rfl [⟨false, true, true⟩, ⟨true, true, true⟩]).1⟩

/-- C8: with P the effective period (the stored period when positive,
else 14400 seconds) and T = max(lastPeriodicWarning, startDate): a tick
at or before T + P sends nothing and changes nothing; a tick strictly
after T + P attempts exactly one reminder; a failed delivery leaves the
row unchanged (so the reminder is retried next tick); a successful
delivery with a successful write sets lastPeriodicWarning to now. -/
theorem sendPeriodic_cadence (startDate now : Int) (st : NotifStatuses) (env : PeriodicEnv) :
    comparisonTimestamp startDate st = max st.lastPeriodicWarning startDate
    ∧ (st.periodicWarningPeriod ≤ 0 → effectivePeriod st = 14400)
    ∧ (now ≤ comparisonTimestamp startDate st + effectivePeriod st →
        (sendPeriodicJob startDate now st env).sendAttempted = false
        ∧ (sendPeriodicJob startDate now st env).st = st)
    ∧ (comparisonTimestamp startDate st + effectivePeriod st < now →
        (sendPeriodicJob startDate now st env).sendAttempted = true)
    ∧ (env.sendOk = false → (sendPeriodicJob startDate now st env).st = st)
    ∧ (comparisonTimestamp startDate st + effectivePeriod st < now →
        env.sendOk = true → env.updateLastOk = true →
        (sendPeriodicJob startDate now st env).st.lastPeriodicWarning = now) := by
  refine ⟨?_, ?_, ?_, ?_, ?_, ?_⟩
  · unfold comparisonTimestamp
    rcases lt_or_ge startDate st.lastPeriodicWarning with hlt | hge
    · rw [if_pos hlt, max_eq_left hlt.le]
    · rw [if_neg (not_lt.mpr hge), max_eq_right hge]
  · intro h
    unfold effectivePeriod
    rw [if_neg (not_lt.mpr h)]
  · intro h
    have hnot : ¬(comparisonTimestamp startDate st + effectivePeriod st < now) :=
      not_lt.mpr h
    simp [sendPeriodicJob, hnot]
  · intro h
    rcases env with ⟨sendOk, updateLastOk⟩
    cases sendOk <;> cases updateLastOk <;> simp [sendPeriodicJob, h]
  · intro h
    by_cases hdue : comparisonTimestamp startDate st + effectivePeriod st < now <;>
      simp [sendPeriodicJob, hdue, h]
  · intro hdue hs hw
    simp [sendPeriodicJob, hdue, hs, hw]

/-- C8 witness: a fresh row (period 0, so the 4 hour default applies,
T = 0): no reminder at tick 14400, one at tick 14401, a failed send
leaves the row unchanged, a successful one stamps the tick time. -/
theorem sendPeriodic_cadence_witness :
    (sendPeriodicJob 0 14401 st0 ⟨true, true⟩).sendAttempted = true
    ∧ (sendPeriodicJob 0 14400 st0 ⟨true, true⟩).sendAttempted = false
    ∧ (sendPeriodicJob 0 14401 st0 ⟨false, true⟩).st = st0
    ∧ (sendPeriodicJob 0 14401 st0 ⟨true, true⟩).st.lastPeriodicWarning = 14401 :=
  ⟨(sendPeriodic_cadence 0 14401 st0 ⟨true, true⟩).2.2.2.1 (by decide),
   ((sendPeriodic_cadence 0 14400 st0 ⟨true, true⟩).2.2.1 (by decide)).1,
   (sendPeriodic_cadence 0 14401 st0 ⟨false, true⟩).2.2.2.2.1 rfl,
   (sendPeriodic_cadence 0 14401 st0 ⟨true, true⟩).2.2.2.2.2 (by decide) rfl rfl⟩

/-- C9: a job without a notif_statuses row gets exactly one row created
with all three sent flags false, all failure counts 0, and the periodic
period equal to the job override when positive and 4 hours (14400
seconds) otherwise; a job that already has a row is left untouched. -/
theorem ensureNotifRecord_defaults (job : JobRec) :
    ensureNotifRecord none job = some (addNotifRecord job)
    ∧ (addNotifRecord job).hourWarningSent = false
    ∧ (addNotifRecord job).dayWarningSent = false
    ∧ (addNotifRecord job).killWarningSent = false
    ∧ (addNotifRecord job).hourWarningFailureCount = 0
    ∧ (addNotifRecord job).dayWarningFailureCount = 0
    ∧ (addNotifRecord job).killWarningFailureCount = 0
    ∧ (0 < job.periodicPeriod →
        (addNotifRecord job).periodicWarningPeriod = job.periodicPeriod)
    ∧ (job.periodicPeriod ≤ 0 → (addNotifRecord job).periodicWarningPeriod = 14400)
    ∧ ∀ r, ensureNotifRecord (some r) job = some r := by
  refine ⟨rfl, rfl, rfl, rfl, rfl, rfl, rfl, ?_, ?_, fun r => rfl⟩
  · intro h
    simp [addNotifRecord, h]
  · intro h
    simp [addNotifRecord, not_lt.mpr h]

/-- C9 witness: a job with a 60 second override and one without. -/
theorem ensureNotifRecord_defaults_witness :
    ensureNotifRecord none ⟨60⟩ = some (addNotifRecord ⟨60⟩)
    ∧ (addNotifRecord ⟨60⟩).periodicWarningPeriod = 60
    ∧ (addNotifRecord ⟨0⟩).periodicWarningPeriod = 14400 :=
  ⟨(ensureNotifRecord_defaults ⟨60⟩).1,
   (ensureNotifRecord_defaults ⟨60⟩).2.2.2.2.2.2.2.1 (by decide),
   (ensureNotifRecord_defaults ⟨0⟩).2.2.2.2.2.2.2.2.1 (by decide)⟩

/-- C10: when the notification URI or the user-directory URI is the
empty string, sendNotif returns success without contacting any
external service, and a due, unsent hour or day warning is therefore
marked sent on its first tick (given the sent-flag write itself
succeeds), with no notification ever attempted or delivered. -/
theorem sendNotif_unconfigured_marks_sent (cfg : NotifConfig) (env : SendNotifEnv)
    (cls : WarningClass) (st : NotifStatuses) (fcOk : Bool)
    (hcfg : cfg.notifsURI = "" ∨ cfg.usersURI = "")
    (hunsent : wasSentOf st cls = false) :
    (sendNotif cfg env).contactedServices = false
    ∧ (sendNotif cfg env).ok = true
    ∧ wasSentOf (sendWarningJob cls st ⟨(sendNotif cfg env).ok, fcOk, true⟩).st cls = true := by
  have hsn : sendNotif cfg env = ⟨false, true⟩ := by
    unfold sendNotif
    rw [if_pos hcfg]
  refine ⟨by rw [hsn], by rw [hsn], ?_⟩
  rw [hsn]
  cases cls <;> simp_all [sendWarningJob, wasSentOf, setWarningSent]

/-- C10 witness: an empty notification URI, a fresh row, hour class. -/
theorem sendNotif_unconfigured_marks_sent_witness :
    (sendNotif ⟨"", "g"⟩ ⟨true, true, true, true, true⟩).contactedServices = false
    ∧ (sendNotif ⟨"", "g"⟩ ⟨true, true, true, true, true⟩).ok = true
    ∧ wasSentOf (sendWarningJob .hour st0
        ⟨(sendNotif ⟨"", "g"⟩ ⟨true, true, true, true, true⟩).ok, true, true⟩).st .hour = true :=
  sendNotif_unconfigured_marks_sent ⟨"", "g"⟩ ⟨true, true, true, true, true⟩ .hour st0 true
    (Or.inl rfl) rfl

end Timelord
